import Mathlib

/-!
Verification development for the mllama text decoder
(`model/mllama/model_text.go`).

The Go code builds a tensor computation graph through the abstract `ml`
interface: every tensor operation allocates a new graph node and no value is
mutated.  We therefore embed tensors as symbolic expression trees whose
constructors are exactly the operations the decoder consumes from the tensor
interface, and we transcribe each `Forward` method of the source into a Lean
function producing such a tree.  A small evaluation semantics over `List ℚ`
(flat tensor data, elementwise add/multiply concrete, the remaining operations
abstract) supports the algebraic claims.
-/

/-- A cache handle.  The external key/value cache is consumed through
`Sub(layerIndex)` (a per-layer slice) and `Put`; slices are identified by the
path of `Sub` indices from the root handle. -/
inductive Cache where
  | root (id : Nat)
  | sub (parent : Cache) (index : Nat)
deriving DecidableEq

/-- Scalar constants fed to `Scale`.  The decoder only ever scales by
`1.0 / math.Sqrt(float64(headDim))`. -/
inductive SConst where
  | invSqrtInt (n : Int)
deriving DecidableEq

/-- Symbolic tensor expressions: one constructor per operation the source
consumes from the tensor interface (`Reshape`, `Rope`, `Permute`,
`Contiguous`, `Mulmat`, `Scale`, `Add`, `Mul`, `Softmax`, `Tanh`, `SILU`),
plus leaves for externally supplied tensors, the externally implemented
`nn.Linear` / `nn.RMSNorm` / `nn.Embedding` units (opaque weight ids), and the
two results of a cache `Put` (the accumulated key and value). -/
inductive Tensor where
  | leaf (id : Nat) (shape : List Int)
  | linear (wid : Nat) (x : Tensor)
  | rmsnorm (wid : Nat) (eps : Rat) (x : Tensor)
  | embedRow (wid : Nat) (ids : Tensor)
  | reshape (x : Tensor) (dims : List Int)
  | rope (x pos : Tensor) (factors : Option Tensor) (dim : Nat) (base scl : Rat)
  | permute (x : Tensor) (a0 a1 a2 a3 : Nat)
  | contiguous (x : Tensor)
  | mulmat (a b : Tensor)
  | scale (x : Tensor) (c : SConst)
  | add (a b : Tensor)
  | mul (a b : Tensor)
  | softmax (x : Tensor)
  | tanh (x : Tensor)
  | silu (x : Tensor)
  | cacheK (c : Cache) (k v : Tensor)
  | cacheV (c : Cache) (k v : Tensor)

/-- Per-axis size queries (`Dim`).  The decoder only reads axis sizes to thread
them into `Reshape` arguments, so the exact rules matter little; they follow
the backend conventions (reshape and leaves carry explicit sizes, permute
relocates axes, matmul combines operand sizes, elementwise operations keep the
first operand's sizes). -/
def Tensor.dim : Tensor → Nat → Int
  | .leaf _ shape, i => shape.getD i 1
  | .linear _ x, i => x.dim i
  | .rmsnorm _ _ x, i => x.dim i
  | .embedRow _ x, i => x.dim i
  | .reshape _ dims, i => dims.getD i 1
  | .rope x _ _ _ _ _, i => x.dim i
  | .permute x a0 a1 a2 a3, i =>
      if i = a0 then x.dim 0 else if i = a1 then x.dim 1
      else if i = a2 then x.dim 2 else if i = a3 then x.dim 3 else 1
  | .contiguous x, i => x.dim i
  | .mulmat a b, i =>
      match i with
      | 0 => a.dim 1
      | 1 => b.dim 1
      | _ => b.dim i
  | .scale x _, i => x.dim i
  | .add a _, i => a.dim i
  | .mul a _, i => a.dim i
  | .softmax x, i => x.dim i
  | .tanh x, i => x.dim i
  | .silu x, i => x.dim i
  | .cacheK _ k _, i => k.dim i
  | .cacheV _ _ v, i => v.dim i

/-- Whether a rotary-position-embedding node occurs anywhere in the tree. -/
def Tensor.hasRope : Tensor → Bool
  | .leaf _ _ => false
  | .linear _ x => x.hasRope
  | .rmsnorm _ _ x => x.hasRope
  | .embedRow _ x => x.hasRope
  | .reshape x _ => x.hasRope
  | .rope _ _ _ _ _ _ => true
  | .permute x _ _ _ _ => x.hasRope
  | .contiguous x => x.hasRope
  | .mulmat a b => a.hasRope || b.hasRope
  | .scale x _ => x.hasRope
  | .add a b => a.hasRope || b.hasRope
  | .mul a b => a.hasRope || b.hasRope
  | .softmax x => x.hasRope
  | .tanh x => x.hasRope
  | .silu x => x.hasRope
  | .cacheK _ k v => k.hasRope || v.hasRope
  | .cacheV _ k v => k.hasRope || v.hasRope

/-- Whether a cache `Put` result occurs anywhere in the tree. -/
def Tensor.hasCachePut : Tensor → Bool
  | .leaf _ _ => false
  | .linear _ x => x.hasCachePut
  | .rmsnorm _ _ x => x.hasCachePut
  | .embedRow _ x => x.hasCachePut
  | .reshape x _ => x.hasCachePut
  | .rope x p f _ _ _ =>
      x.hasCachePut || p.hasCachePut ||
        (match f with
         | some t => t.hasCachePut
         | none => false)
  | .permute x _ _ _ _ => x.hasCachePut
  | .contiguous x => x.hasCachePut
  | .mulmat a b => a.hasCachePut || b.hasCachePut
  | .scale x _ => x.hasCachePut
  | .add a b => a.hasCachePut || b.hasCachePut
  | .mul a b => a.hasCachePut || b.hasCachePut
  | .softmax x => x.hasCachePut
  | .tanh x => x.hasCachePut
  | .silu x => x.hasCachePut
  | .cacheK _ _ _ => true
  | .cacheV _ _ _ => true

/-- Whether a normalization node occurs anywhere in the tree. -/
def Tensor.hasNorm : Tensor → Bool
  | .leaf _ _ => false
  | .linear _ x => x.hasNorm
  | .rmsnorm _ _ _ => true
  | .embedRow _ x => x.hasNorm
  | .reshape x _ => x.hasNorm
  | .rope x p f _ _ _ =>
      x.hasNorm || p.hasNorm ||
        (match f with
         | some t => t.hasNorm
         | none => false)
  | .permute x _ _ _ _ => x.hasNorm
  | .contiguous x => x.hasNorm
  | .mulmat a b => a.hasNorm || b.hasNorm
  | .scale x _ => x.hasNorm
  | .add a b => a.hasNorm || b.hasNorm
  | .mul a b => a.hasNorm || b.hasNorm
  | .softmax x => x.hasNorm
  | .tanh x => x.hasNorm
  | .silu x => x.hasNorm
  | .cacheK _ k v => k.hasNorm || v.hasNorm
  | .cacheV _ k v => k.hasNorm || v.hasNorm

/-- Interpretation of the abstract tensor operations over flat rational data.
Elementwise structure (add, multiply with scalar broadcast, scale, tanh, silu)
is concrete; shape-dependent operations (matmul, softmax, permutation layout,
the external linear/norm/embedding units, rope, cache accumulation) are
abstract fields, as the spec treats them as opaque collaborator contracts. -/
structure Interp where
  leafF : Nat → List Rat
  linearF : Nat → List Rat → List Rat
  rmsnormF : Nat → Rat → List Rat → List Rat
  embedF : Nat → List Rat → List Rat
  ropeF : List Rat → List Rat → Option (List Rat) → Nat → Rat → Rat → List Rat
  mulmatF : List Rat → List Rat → List Rat
  softmaxF : List Rat → List Rat
  permuteF : Nat → Nat → Nat → Nat → List Rat → List Rat
  tanhF : Rat → Rat
  siluF : Rat → Rat
  invSqrtF : Int → Rat
  cacheKF : List Rat → List Rat → List Rat
  cacheVF : List Rat → List Rat → List Rat

/-- Evaluate a symbolic tensor to flat data under an interpretation.
`Reshape` and `Contiguous` are data-preserving layout operations; `Mul`
broadcasts a one-element right operand (the scalar-gate case), otherwise
multiplies elementwise; `Add` is elementwise. -/
def Tensor.eval (I : Interp) : Tensor → List Rat
  | .leaf id _ => I.leafF id
  | .linear w x => I.linearF w (Tensor.eval I x)
  | .rmsnorm w e x => I.rmsnormF w e (Tensor.eval I x)
  | .embedRow w x => I.embedF w (Tensor.eval I x)
  | .reshape x _ => Tensor.eval I x
  | .rope x p f d b s =>
      I.ropeF (Tensor.eval I x) (Tensor.eval I p)
        (match f with
         | some t => some (Tensor.eval I t)
         | none => none) d b s
  | .permute x a0 a1 a2 a3 => I.permuteF a0 a1 a2 a3 (Tensor.eval I x)
  | .contiguous x => Tensor.eval I x
  | .mulmat a b => I.mulmatF (Tensor.eval I a) (Tensor.eval I b)
  | .scale x (.invSqrtInt n) => (Tensor.eval I x).map (· * I.invSqrtF n)
  | .add a b => List.zipWith (· + ·) (Tensor.eval I a) (Tensor.eval I b)
  | .mul a b =>
      let bv := Tensor.eval I b
      if bv.length = 1 then (Tensor.eval I a).map (· * bv.headD 0)
      else List.zipWith (· * ·) (Tensor.eval I a) bv
  | .softmax x => I.softmaxF (Tensor.eval I x)
  | .tanh x => (Tensor.eval I x).map I.tanhF
  | .silu x => (Tensor.eval I x).map I.siluF
  | .cacheK _ k v => I.cacheKF (Tensor.eval I k) (Tensor.eval I v)
  | .cacheV _ k v => I.cacheVF (Tensor.eval I k) (Tensor.eval I v)

/-- The Go loop index is converted with `uint32(i)` before the membership
test against the configured cross-attention layer index list. -/
def u32 (n : Nat) : Nat := n % 4294967296

/-- Modelled from the spec: `nn.Linear`, an externally implemented linear
projection unit (weight loading and internals out of scope); identified by an
opaque weight id. -/
structure Linear where
  wid : Nat

/-- Modelled from the spec: applying a linear projection produces a new tensor
node. -/
def Linear.Forward (l : Linear) (x : Tensor) : Tensor := Tensor.linear l.wid x

/-- Modelled from the spec: `nn.RMSNorm`, an externally implemented
normalization unit. -/
structure RMSNormW where
  wid : Nat

/-- Modelled from the spec: applying the normalization with epsilon produces a
new tensor node. -/
def RMSNormW.Forward (n : RMSNormW) (x : Tensor) (eps : Rat) : Tensor :=
  Tensor.rmsnorm n.wid eps x

/-- Modelled from the spec: `nn.Embedding`, the external token embedding
table. -/
structure Embedding where
  wid : Nat

/-- Modelled from the spec: embedding lookup produces a new tensor node. -/
def Embedding.Forward (e : Embedding) (ids : Tensor) : Tensor :=
  Tensor.embedRow e.wid ids

/-- Modelled from the spec: the external cache interface.  `Put` appends the
given key/value for the current positions and returns the full accumulated
key/value tensors; symbolically these are the two `Put`-result nodes tied to
the slice handle and the freshly projected pair. -/
def Cache.Put (c : Cache) (k v : Tensor) : Tensor × Tensor :=
  (Tensor.cacheK c k v, Tensor.cacheV c k v)

/-- `TextModelOptions` from the source: rope factors tensor (may be absent),
geometry, epsilon, rope parameters and the configured cross-attention layer
index list. -/
structure TextModelOptions where
  RopeFactors : Option Tensor
  hiddenSize : Int
  numHeads : Int
  numKVHeads : Int
  eps : Rat
  ropeBase : Rat
  ropeScale : Rat
  ropeDim : Nat
  crossAttentionLayers : List Nat

/-- `TextSelfAttention` weights. -/
structure TextSelfAttention where
  Query : Linear
  Key : Linear
  Value : Linear
  Output : Linear

/-- `TextSelfAttention.Forward`, transcribed line by line from the source:
project q/k/v, reshape, rope q and k, merge k/v with the cache slice via
`Put`, permute, score with scaling, optionally add the mask, softmax, weighted
sum, permute/reshape back, output projection.  The mask is an `Option` because
the source checks `mask != nil`. -/
def TextSelfAttention.Forward (sa : TextSelfAttention) (hiddenState positions : Tensor)
    (mask : Option Tensor) (cache : Cache) (opts : TextModelOptions) : Tensor :=
  let batchSize := hiddenState.dim 1
  let headDim := opts.hiddenSize / opts.numHeads
  let query := Linear.Forward sa.Query hiddenState
  let query := query.reshape [headDim, opts.numHeads, batchSize]
  let query := query.rope positions opts.RopeFactors opts.ropeDim opts.ropeBase opts.ropeScale
  let key := Linear.Forward sa.Key hiddenState
  let key := key.reshape [headDim, opts.numKVHeads, batchSize]
  let key := key.rope positions opts.RopeFactors opts.ropeDim opts.ropeBase opts.ropeScale
  let value := Linear.Forward sa.Value hiddenState
  let value := value.reshape [headDim, opts.numKVHeads, batchSize]
  let kv := cache.Put key value
  let key := kv.1
  let value := kv.2
  let query := (query.permute 0 2 1 3).contiguous
  let key := (key.permute 0 2 1 3).contiguous
  let value := (value.permute 1 2 0 3).contiguous
  let scores := key.mulmat query
  let scores := scores.scale (SConst.invSqrtInt headDim)
  let scores :=
    match mask with
    | some m => scores.add m
    | none => scores
  let scores := scores.softmax
  let attention := value.mulmat scores
  let attention := (attention.permute 0 2 1 3).contiguous
  let attention := attention.reshape [opts.hiddenSize, batchSize]
  Linear.Forward sa.Output attention

/-- `TextMLP` weights. -/
structure TextMLP where
  Up : Linear
  Down : Linear
  Gate : Linear

/-- `TextMLP.Forward` from the source:
`Down(SILU(Gate(x)) * Up(x))`. -/
def TextMLP.Forward (mlp : TextMLP) (hiddenState : Tensor) (_opts : TextModelOptions) : Tensor :=
  Linear.Forward mlp.Down
    (Tensor.mul (Tensor.silu (Linear.Forward mlp.Gate hiddenState))
      (Linear.Forward mlp.Up hiddenState))

/-- `TextSelfAttentionDecoderLayer` weights. -/
structure TextSelfAttentionDecoderLayer where
  AttentionNorm : RMSNormW
  SelfAttention : TextSelfAttention
  MLPNorm : RMSNormW
  MLP : TextMLP

/-- `TextSelfAttentionDecoderLayer.Forward` from the source: pre-norm,
self-attention with the cache, residual add, pre-norm, feed-forward, residual
add.  The cross-attention state and mask parameters are ignored (`_, _` in the
source signature). -/
def TextSelfAttentionDecoderLayer.Forward (d : TextSelfAttentionDecoderLayer)
    (hiddenState positions : Tensor) (mask : Option Tensor) (cache : Cache)
    (opts : TextModelOptions) : Tensor :=
  let residual := hiddenState
  let h1 := RMSNormW.Forward d.AttentionNorm hiddenState opts.eps
  let h2 := TextSelfAttention.Forward d.SelfAttention h1 positions mask cache opts
  let h3 := h2.add residual
  let residual2 := h3
  let h4 := RMSNormW.Forward d.MLPNorm h3 opts.eps
  let h5 := TextMLP.Forward d.MLP h4 opts
  h5.add residual2

/-- `TextCrossAttention` weights. -/
structure TextCrossAttention where
  QueryNorm : RMSNormW
  Query : Linear
  KeyNorm : RMSNormW
  Key : Linear
  Value : Linear
  Output : Linear

/-- `TextCrossAttention.Forward` from the source: query projected from the
hidden state, reshaped and RMS-normalized; key/value projected from the
cross-modal tensor, key RMS-normalized; no rope, no cache `Put` (the source
has only a `TODO cache key, value` comment), no mask before softmax.  The
cache parameter is received but unused. -/
def TextCrossAttention.Forward (ca : TextCrossAttention)
    (hiddenState crossAttentionStates : Tensor) (_cache : Cache)
    (opts : TextModelOptions) : Tensor :=
  let batchSize := hiddenState.dim 1
  let headDim := opts.hiddenSize / opts.numHeads
  let numVisionTokens := crossAttentionStates.dim 1
  let numTiles := crossAttentionStates.dim 2
  let query := Linear.Forward ca.Query hiddenState
  let query := query.reshape [headDim, opts.numHeads, batchSize]
  let query := RMSNormW.Forward ca.QueryNorm query opts.eps
  let key := Linear.Forward ca.Key crossAttentionStates
  let key := key.reshape [headDim, opts.numKVHeads, numVisionTokens * numTiles]
  let key := RMSNormW.Forward ca.KeyNorm key opts.eps
  let value := Linear.Forward ca.Value crossAttentionStates
  let value := value.reshape [headDim, opts.numKVHeads, numVisionTokens * numTiles]
  let query := (query.permute 0 2 1 3).contiguous
  let key := (key.permute 0 2 1 3).contiguous
  let value := (value.permute 1 2 0 3).contiguous
  let scores := key.mulmat query
  let scores := scores.scale (SConst.invSqrtInt headDim)
  let scores := scores.softmax
  let attention := value.mulmat scores
  let attention := (attention.permute 0 2 1 3).contiguous
  let attention := attention.reshape [opts.hiddenSize, batchSize]
  Linear.Forward ca.Output attention

/-- `TextCrossAttentionDecoderLayer` weights: two RMS norms, the
cross-attention unit, the feed-forward unit, and the two learned gate
tensors. -/
structure TextCrossAttentionDecoderLayer where
  AttentionNorm : RMSNormW
  CrossAttention : TextCrossAttention
  AttentionGate : Tensor
  MLPNorm : RMSNormW
  MLP : TextMLP
  MLPGate : Tensor

/-- `TextCrossAttentionDecoderLayer.Forward` from the source: pre-norm,
cross-attention, multiply by `Tanh` of the attention gate, residual add;
pre-norm, feed-forward, multiply by `Tanh` of the mlp gate, residual add.
The position ids and mask parameters are ignored (`_, _` in the source
signature); the cross-attention mask is received and threaded but never
read. -/
def TextCrossAttentionDecoderLayer.Forward (d : TextCrossAttentionDecoderLayer)
    (hiddenState crossAttentionStates : Tensor) (_crossAttentionMask : Option Tensor)
    (cache : Cache) (opts : TextModelOptions) : Tensor :=
  let residual := hiddenState
  let h1 := RMSNormW.Forward d.AttentionNorm hiddenState opts.eps
  let h2 := TextCrossAttention.Forward d.CrossAttention h1 crossAttentionStates cache opts
  let h3 := h2.mul d.AttentionGate.tanh
  let h4 := h3.add residual
  let residual2 := h4
  let h5 := RMSNormW.Forward d.MLPNorm h4 opts.eps
  let h6 := TextMLP.Forward d.MLP h5 opts
  let h7 := h6.mul d.MLPGate.tanh
  h7.add residual2

/-- The `TextDecoderLayer` interface: one of the two concrete layer kinds. -/
inductive TextDecoderLayer where
  | selfAttn (l : TextSelfAttentionDecoderLayer)
  | crossAttn (l : TextCrossAttentionDecoderLayer)

/-- Discriminator for the layer kind. -/
def TextDecoderLayer.isCross : TextDecoderLayer → Bool
  | .selfAttn _ => false
  | .crossAttn _ => true

/-- Dispatch through the `TextDecoderLayer` interface.  A `none` result models
the nil-interface dereference (runtime panic) that running a cross-attention
layer without a cross-modal state tensor would cause (`crossAttentionStates.Dim`
on a nil tensor); a self-attention layer never fails. -/
def TextDecoderLayer.Forward : TextDecoderLayer → Tensor → Tensor → Option Tensor →
    Option Tensor → Option Tensor → Cache → TextModelOptions → Option Tensor
  | .selfAttn l, h, pos, mask, _, _, c, o => some (l.Forward h pos mask c o)
  | .crossAttn l, h, _, _, xs, xm, c, o => xs.map (fun s => l.Forward h s xm c o)

/-- The decoder: an ordered list of layers. -/
structure TextDecoder where
  Layers : List TextDecoderLayer

/-- The decoder loop from `TextDecoder.Forward`, indexed from `i`: layer `i`
runs when `!slices.Contains(opts.crossAttentionLayers, uint32(i)) ||
crossAttentionStates != nil`, receiving the cache slice `Sub(i)`; otherwise the
hidden state is passed through unchanged.  A failing layer (see
`TextDecoderLayer.Forward`) aborts the pass. -/
def forwardLayers (opts : TextModelOptions) (pos : Tensor) (mask xs xm : Option Tensor)
    (cache : Cache) : List TextDecoderLayer → Nat → Tensor → Option Tensor
  | [], _, h => some h
  | l :: rest, i, h =>
    if !(opts.crossAttentionLayers.contains (u32 i)) || xs.isSome then
      (TextDecoderLayer.Forward l h pos mask xs xm (Cache.sub cache i) opts).bind
        (fun h2 => forwardLayers opts pos mask xs xm cache rest (i + 1) h2)
    else forwardLayers opts pos mask xs xm cache rest (i + 1) h

/-- `TextDecoder.Forward` from the source: run the loop over all layers
starting at index 0. -/
def TextDecoder.Forward (d : TextDecoder) (hiddenState pos : Tensor)
    (mask xs xm : Option Tensor) (cache : Cache) (opts : TextModelOptions) :
    Option Tensor :=
  forwardLayers opts pos mask xs xm cache d.Layers 0 hiddenState

/-- `TextModel`: embedding, decoder stack, final norm, output projection, and
the options. -/
structure TextModel where
  TokenEmbedding : Embedding
  Transformer : TextDecoder
  OutputNorm : RMSNormW
  Output : Linear
  textModelOptions : TextModelOptions

/-- `TextModel.Forward` from the source: embed the tokens, run the decoder,
apply the final norm and the output projection to obtain logits. -/
def TextModel.Forward (m : TextModel) (inputIDs positionIDs : Tensor)
    (mask xs xm : Option Tensor) (cache : Cache) : Option Tensor :=
  let h := Embedding.Forward m.TokenEmbedding inputIDs
  (m.Transformer.Forward h positionIDs mask xs xm cache m.textModelOptions).map
    (fun h2 => Linear.Forward m.Output
      (RMSNormW.Forward m.OutputNorm h2 m.textModelOptions.eps))

/-- The configuration keys read by `newTextModel`.  Unsigned integer values
are `Nat`, float values `Rat`; `ropeFreqScale` is optional because the source
reads it with a default of 1. -/
structure Config where
  blockCount : Nat
  crossAttentionLayers : List Nat
  embeddingLength : Nat
  headCount : Nat
  headCountKV : Nat
  rmsEps : Rat
  ropeFreqBase : Rat
  ropeFreqScale : Option Rat
  ropeDimCount : Nat

/-- Placeholder weight structures: the ggml loader populates the tagged weight
fields after construction (out of scope); `newTextModel` itself builds the
layer structs with zero values. -/
def emptySelfLayer : TextSelfAttentionDecoderLayer :=
  { AttentionNorm := ⟨0⟩
  , SelfAttention := { Query := ⟨0⟩, Key := ⟨0⟩, Value := ⟨0⟩, Output := ⟨0⟩ }
  , MLPNorm := ⟨0⟩
  , MLP := { Up := ⟨0⟩, Down := ⟨0⟩, Gate := ⟨0⟩ } }

/-- Placeholder cross-attention layer struct, weights populated externally. -/
def emptyCrossLayer : TextCrossAttentionDecoderLayer :=
  { AttentionNorm := ⟨0⟩
  , CrossAttention :=
      { QueryNorm := ⟨0⟩, Query := ⟨0⟩, KeyNorm := ⟨0⟩, Key := ⟨0⟩
      , Value := ⟨0⟩, Output := ⟨0⟩ }
  , AttentionGate := Tensor.leaf 0 []
  , MLPNorm := ⟨0⟩
  , MLP := { Up := ⟨0⟩, Down := ⟨0⟩, Gate := ⟨0⟩ }
  , MLPGate := Tensor.leaf 0 [] }

/-- `newTextModel` from the source: build one decoder layer per block index —
cross-attention kind when the index is in the configured cross-attention layer
list, self-attention kind otherwise — and copy the configuration values into
the options.  The function is total: the source performs no validation of the
configuration and has no error return. -/
def newTextModel (c : Config) : TextModel :=
  { TokenEmbedding := ⟨0⟩
  , Transformer :=
      { Layers := (List.range c.blockCount).map (fun i =>
          if c.crossAttentionLayers.contains i then
            TextDecoderLayer.crossAttn emptyCrossLayer
          else
            TextDecoderLayer.selfAttn emptySelfLayer) }
  , OutputNorm := ⟨0⟩
  , Output := ⟨0⟩
  , textModelOptions :=
      { RopeFactors := none
      , hiddenSize := (c.embeddingLength : Int)
      , numHeads := (c.headCount : Int)
      , numKVHeads := (c.headCountKV : Int)
      , eps := c.rmsEps
      , ropeBase := c.ropeFreqBase
      , ropeScale := c.ropeFreqScale.getD 1
      , ropeDim := c.ropeDimCount
      , crossAttentionLayers := c.crossAttentionLayers } }

/-- Written from the spec (4.1 steps 5 through 7): raw scores are the
transposed matmul of key and query scaled by the inverse square root of
`headDim`; a supplied mask is added elementwise before softmax; with no mask
nothing is added; softmax follows. -/
def specMaskedScores (key query : Tensor) (headDim : Int) (mask : Option Tensor) : Tensor :=
  let raw := (key.mulmat query).scale (SConst.invSqrtInt headDim)
  let masked :=
    match mask with
    | some m => raw.add m
    | none => raw
  masked.softmax

/-- C3: for every call of the self-attention unit, the pre-softmax scores are
the transposed matmul of the permuted key and query scaled by
`1/sqrt(headDim)` with `headDim = hiddenSize / numHeads`; a supplied mask is
added elementwise before softmax, a nil mask adds nothing, and softmax is
applied to the possibly masked scores. -/
theorem selfAttention_scores_spec (sa : TextSelfAttention) (h pos : Tensor)
    (mask : Option Tensor) (cache : Cache) (opts : TextModelOptions) :
    TextSelfAttention.Forward sa h pos mask cache opts =
      (let headDim := opts.hiddenSize / opts.numHeads
       let q := ((Linear.Forward sa.Query h).reshape
          [headDim, opts.numHeads, h.dim 1]).rope pos opts.RopeFactors
          opts.ropeDim opts.ropeBase opts.ropeScale
       let k := ((Linear.Forward sa.Key h).reshape
          [headDim, opts.numKVHeads, h.dim 1]).rope pos opts.RopeFactors
          opts.ropeDim opts.ropeBase opts.ropeScale
       let v := (Linear.Forward sa.Value h).reshape [headDim, opts.numKVHeads, h.dim 1]
       let kv := cache.Put k v
       let pq := (q.permute 0 2 1 3).contiguous
       let pk := (kv.1.permute 0 2 1 3).contiguous
       let pv := (kv.2.permute 1 2 0 3).contiguous
       Linear.Forward sa.Output
         ((((pv.mulmat (specMaskedScores pk pq headDim mask)).permute 0 2 1 3).contiguous).reshape
           [opts.hiddenSize, h.dim 1])) := by
  cases mask <;> rfl

/-- The self-attention computation from the cache `Put` onwards (source lines
34 through 53), parameterized over the projected query/key/value tensors. -/
def selfAttnAfterProj (sa : TextSelfAttention) (query key value : Tensor)
    (mask : Option Tensor) (cache : Cache) (opts : TextModelOptions)
    (batchSize : Int) : Tensor :=
  let headDim := opts.hiddenSize / opts.numHeads
  let kv := cache.Put key value
  let pq := (query.permute 0 2 1 3).contiguous
  let pk := (kv.1.permute 0 2 1 3).contiguous
  let pv := (kv.2.permute 1 2 0 3).contiguous
  let scores := pk.mulmat pq
  let scores := scores.scale (SConst.invSqrtInt headDim)
  let scores :=
    match mask with
    | some m => scores.add m
    | none => scores
  let scores := scores.softmax
  let attention := pv.mulmat scores
  let attention := (attention.permute 0 2 1 3).contiguous
  let attention := attention.reshape [opts.hiddenSize, batchSize]
  Linear.Forward sa.Output attention

/-- C8: the projected query is reshaped to (headDim, numHeads, batch), key and
value to (headDim, numKVHeads, batch); one single rope transform — same
positions, ropeFactors, ropeDim, ropeBase, ropeScale — is applied to query and
key, and the value receives no rope. -/
theorem selfAttention_reshape_rope_args (sa : TextSelfAttention) (h pos : Tensor)
    (mask : Option Tensor) (cache : Cache) (opts : TextModelOptions) :
    TextSelfAttention.Forward sa h pos mask cache opts =
      (let headDim := opts.hiddenSize / opts.numHeads
       let rp : Tensor → Tensor := fun t =>
         t.rope pos opts.RopeFactors opts.ropeDim opts.ropeBase opts.ropeScale
       selfAttnAfterProj sa
         (rp ((Linear.Forward sa.Query h).reshape [headDim, opts.numHeads, h.dim 1]))
         (rp ((Linear.Forward sa.Key h).reshape [headDim, opts.numKVHeads, h.dim 1]))
         ((Linear.Forward sa.Value h).reshape [headDim, opts.numKVHeads, h.dim 1])
         mask cache opts (h.dim 1)) := rfl

/-- Written from the spec (4.4): pre-norm, self-attention with the cache,
residual add of the pre-attention state; pre-norm, feed-forward, residual add
of the pre-feed-forward state; no gating. -/
def specPreNormSelfAttnBlock (d : TextSelfAttentionDecoderLayer) (x positions : Tensor)
    (mask : Option Tensor) (cache : Cache) (opts : TextModelOptions) : Tensor :=
  let afterAttn :=
    Tensor.add
      (TextSelfAttention.Forward d.SelfAttention
        (RMSNormW.Forward d.AttentionNorm x opts.eps) positions mask cache opts) x
  Tensor.add
    (TextMLP.Forward d.MLP (RMSNormW.Forward d.MLPNorm afterAttn opts.eps) opts)
    afterAttn

/-- C7: the self-attention decoder layer output equals the spec composition
normalize, self-attend with cache, add the pre-normalization input; normalize,
feed-forward, add the pre-feed-forward sum — with no gating of either sublayer
output. -/
theorem selfAttn_layer_prenorm_residual (d : TextSelfAttentionDecoderLayer)
    (x positions : Tensor) (mask : Option Tensor) (cache : Cache)
    (opts : TextModelOptions) :
    d.Forward x positions mask cache opts
      = specPreNormSelfAttnBlock d x positions mask cache opts := rfl

/-- Written from the spec (4.3): `down(silu(gate(x)) * up(x))` elementwise. -/
def specSwiGLU (mlp : TextMLP) (x : Tensor) : Tensor :=
  Linear.Forward mlp.Down
    (Tensor.mul (Tensor.silu (Linear.Forward mlp.Gate x)) (Linear.Forward mlp.Up x))

/-- C9: the gated feed-forward output equals `down(silu(gate(x)) * up(x))`,
and the unit introduces no normalization node of its own. -/
theorem textMLP_swiglu (mlp : TextMLP) (x : Tensor) (opts : TextModelOptions) :
    TextMLP.Forward mlp x opts = specSwiGLU mlp x
    ∧ Tensor.hasNorm (TextMLP.Forward mlp x opts) = x.hasNorm := by
  refine ⟨rfl, ?_⟩
  cases hx : x.hasNorm <;>
    simp [TextMLP.Forward, Linear.Forward, Tensor.hasNorm, hx]

/-- C5: the cross-attention unit is independent of the cache handle; it adds
no rope node and no cache `Put` node; and its output is exactly the spec
pipeline in which the reshaped query and key projections each pass through an
RMS normalization before scoring, softmax is applied directly to the scaled
scores with no mask term, and key/value are projected afresh from the
cross-modal tensor. -/
theorem crossAttention_frame_properties (ca : TextCrossAttention) (h xs : Tensor)
    (cache cache2 : Cache) (opts : TextModelOptions) :
    (TextCrossAttention.Forward ca h xs cache opts
       = TextCrossAttention.Forward ca h xs cache2 opts)
    ∧ Tensor.hasRope (TextCrossAttention.Forward ca h xs cache opts)
        = (h.hasRope || xs.hasRope)
    ∧ Tensor.hasCachePut (TextCrossAttention.Forward ca h xs cache opts)
        = (h.hasCachePut || xs.hasCachePut)
    ∧ TextCrossAttention.Forward ca h xs cache opts =
        (let batchSize := h.dim 1
         let headDim := opts.hiddenSize / opts.numHeads
         let nvt := xs.dim 1
         let nt := xs.dim 2
         let q := RMSNormW.Forward ca.QueryNorm
           ((Linear.Forward ca.Query h).reshape [headDim, opts.numHeads, batchSize]) opts.eps
         let k := RMSNormW.Forward ca.KeyNorm
           ((Linear.Forward ca.Key xs).reshape [headDim, opts.numKVHeads, nvt * nt]) opts.eps
         let v := (Linear.Forward ca.Value xs).reshape [headDim, opts.numKVHeads, nvt * nt]
         let pq := (q.permute 0 2 1 3).contiguous
         let pk := (k.permute 0 2 1 3).contiguous
         let pv := (v.permute 1 2 0 3).contiguous
         Linear.Forward ca.Output
           ((((pv.mulmat (((pk.mulmat pq).scale
               (SConst.invSqrtInt headDim)).softmax)).permute 0 2 1 3).contiguous).reshape
             [opts.hiddenSize, batchSize])) := by
  refine ⟨rfl, ?_, ?_, rfl⟩
  · cases hh : h.hasRope <;> cases hx : xs.hasRope <;>
      simp [TextCrossAttention.Forward, Linear.Forward, RMSNormW.Forward,
        Tensor.hasRope, hh, hx]
  · cases hh : h.hasCachePut <;> cases hx : xs.hasCachePut <;>
      simp [TextCrossAttention.Forward, Linear.Forward, RMSNormW.Forward,
        Tensor.hasCachePut, hh, hx]

/-- Layer dispatch ignores the cross-attention mask argument: both concrete
layer kinds thread it without reading it. -/
theorem layerForward_xm_irrel (l : TextDecoderLayer) (h pos : Tensor)
    (mask xs xm xm2 : Option Tensor) (c : Cache) (o : TextModelOptions) :
    TextDecoderLayer.Forward l h pos mask xs xm c o
      = TextDecoderLayer.Forward l h pos mask xs xm2 c o := by
  cases l <;> rfl

/-- The decoder loop result does not depend on the cross-attention mask. -/
theorem forwardLayers_xm_irrel (o : TextModelOptions) (pos : Tensor)
    (mask xs xm xm2 : Option Tensor) (cache : Cache) :
    ∀ (layers : List TextDecoderLayer) (i : Nat) (h : Tensor),
      forwardLayers o pos mask xs xm cache layers i h
        = forwardLayers o pos mask xs xm2 cache layers i h := by
  intro layers
  induction layers with
  | nil => intro i h; rfl
  | cons l rest ih =>
    intro i h
    simp only [forwardLayers]
    split
    · rw [layerForward_xm_irrel l h pos mask xs xm xm2]
      cases TextDecoderLayer.Forward l h pos mask xs xm2 (Cache.sub cache i) o with
      | none => rfl
      | some h2 => simpa using ih (i + 1) h2
    · exact ih (i + 1) h

/-- C10: the crossAttentionMask argument is never read anywhere in the text
model — two forward calls of `TextModel.Forward` that agree on every other
input and cache handle but differ in the cross-attention mask (including nil
versus non-nil) produce identical logits. -/
theorem crossAttentionMask_unused (m : TextModel) (ids pos : Tensor)
    (mask xs xm xm2 : Option Tensor) (cache : Cache) :
    m.Forward ids pos mask xs xm cache = m.Forward ids pos mask xs xm2 cache := by
  unfold TextModel.Forward TextDecoder.Forward
  exact congrArg
    (Option.map (fun h2 => Linear.Forward m.Output
      (RMSNormW.Forward m.OutputNorm h2 m.textModelOptions.eps)))
    (forwardLayers_xm_irrel m.textModelOptions pos mask xs xm xm2
      cache m.Transformer.Layers 0 (Embedding.Forward m.TokenEmbedding ids))

/-- Modelled from the spec (4.6): the dispatch rule when no cross-modal state
is supplied — a layer whose index is in the configured cross-attention index
set is a no-op (the hidden state passes through unchanged and no cache slice
for it is obtained); every other layer runs with its own slice `Sub(i)`. -/
def specDispatchNoStates (opts : TextModelOptions) (pos : Tensor)
    (mask xm : Option Tensor) (cache : Cache) :
    List TextDecoderLayer → Nat → Tensor → Option Tensor
  | [], _, h => some h
  | l :: rest, i, h =>
    if opts.crossAttentionLayers.contains (u32 i) then
      specDispatchNoStates opts pos mask xm cache rest (i + 1) h
    else
      (TextDecoderLayer.Forward l h pos mask none xm (Cache.sub cache i) opts).bind
        (fun h2 => specDispatchNoStates opts pos mask xm cache rest (i + 1) h2)

/-- Modelled from the spec (4.6): with a cross-modal state supplied, every
layer executes, each with its own slice `Sub(i)`. -/
def specDispatchAllRun (opts : TextModelOptions) (pos s : Tensor)
    (mask xm : Option Tensor) (cache : Cache) :
    List TextDecoderLayer → Nat → Tensor → Option Tensor
  | [], _, h => some h
  | l :: rest, i, h =>
    (TextDecoderLayer.Forward l h pos mask (some s) xm (Cache.sub cache i) opts).bind
      (fun h2 => specDispatchAllRun opts pos s mask xm cache rest (i + 1) h2)

/-- C1: a layer executes iff its index is not in the configured
cross-attention index set or a cross-modal state tensor was supplied: with no
state the loop equals the spec dispatch in which every cross-attention-indexed
layer is skipped (hidden state unchanged, no slice for it obtained) and every
other layer runs with `Sub(i)`; with a state supplied every layer runs; and a
skipped step passes its hidden state to the next layer unchanged without
raising an error. -/
theorem decoder_dispatch_rule :
    (∀ (opts : TextModelOptions) (pos : Tensor) (mask xm : Option Tensor)
       (cache : Cache) (layers : List TextDecoderLayer) (i : Nat) (h : Tensor),
       forwardLayers opts pos mask none xm cache layers i h
         = specDispatchNoStates opts pos mask xm cache layers i h)
    ∧ (∀ (opts : TextModelOptions) (pos s : Tensor) (mask xm : Option Tensor)
       (cache : Cache) (layers : List TextDecoderLayer) (i : Nat) (h : Tensor),
       forwardLayers opts pos mask (some s) xm cache layers i h
         = specDispatchAllRun opts pos s mask xm cache layers i h)
    ∧ (∀ (opts : TextModelOptions) (pos : Tensor) (mask xm : Option Tensor)
       (cache : Cache) (l : TextDecoderLayer) (rest : List TextDecoderLayer)
       (i : Nat) (h : Tensor),
       opts.crossAttentionLayers.contains (u32 i) = true →
       forwardLayers opts pos mask none xm cache (l :: rest) i h
         = forwardLayers opts pos mask none xm cache rest (i + 1) h) := by
  refine ⟨?_, ?_, ?_⟩
  · intro opts pos mask xm cache layers
    induction layers with
    | nil => intro i h; rfl
    | cons l rest ih =>
      intro i h
      simp only [forwardLayers, specDispatchNoStates, Option.isSome_none, Bool.or_false]
      by_cases hc : opts.crossAttentionLayers.contains (u32 i)
      · simp [hc, ih]
      · simp [hc, ih]
  · intro opts pos s mask xm cache layers
    induction layers with
    | nil => intro i h; rfl
    | cons l rest ih =>
      intro i h
      simp only [forwardLayers, specDispatchAllRun, Option.isSome_some, Bool.or_true,
        if_true]
      simp [ih]
  · intro opts pos mask xm cache l rest i h hc
    simp only [forwardLayers, hc, Bool.not_true, Option.isSome_none, Bool.or_false]
    rfl

/-- Concrete options used by the witness instantiations. -/
def wOpts : TextModelOptions :=
  { RopeFactors := none
  , hiddenSize := 4
  , numHeads := 2
  , numKVHeads := 1
  , eps := 1 / 100000
  , ropeBase := 10000
  , ropeScale := 1
  , ropeDim := 2
  , crossAttentionLayers := [0] }

/-- Witness for C1: with index 0 in the configured set and no cross-modal
state, the step over a cross-attention layer at index 0 passes the hidden
state through unchanged. -/
theorem decoder_dispatch_rule_w :
    (wOpts.crossAttentionLayers.contains (u32 0) = true)
    ∧ forwardLayers wOpts (Tensor.leaf 1 []) none none none (Cache.root 0)
        [TextDecoderLayer.crossAttn emptyCrossLayer] 0 (Tensor.leaf 2 [])
      = forwardLayers wOpts (Tensor.leaf 1 []) none none none (Cache.root 0)
          [] 1 (Tensor.leaf 2 []) :=
  ⟨by decide,
   decoder_dispatch_rule.2.2 wOpts (Tensor.leaf 1 []) none none (Cache.root 0)
     (TextDecoderLayer.crossAttn emptyCrossLayer) [] 0 (Tensor.leaf 2 []) (by decide)⟩

/-- The self-attention scoring stage (source lines 36 through 53),
parameterized over the query and the key/value tensors entering the
permutation step. -/
def selfAttnScoring (sa : TextSelfAttention) (query key value : Tensor)
    (mask : Option Tensor) (opts : TextModelOptions) (batchSize : Int) : Tensor :=
  let headDim := opts.hiddenSize / opts.numHeads
  let pq := (query.permute 0 2 1 3).contiguous
  let pk := (key.permute 0 2 1 3).contiguous
  let pv := (value.permute 1 2 0 3).contiguous
  let scores := pk.mulmat pq
  let scores := scores.scale (SConst.invSqrtInt headDim)
  let scores :=
    match mask with
    | some m => scores.add m
    | none => scores
  let scores := scores.softmax
  let attention := pv.mulmat scores
  let attention := (attention.permute 0 2 1 3).contiguous
  let attention := attention.reshape [opts.hiddenSize, batchSize]
  Linear.Forward sa.Output attention

/-- C4: the key/value tensors entering attention scoring are exactly the two
accumulated results of the cache slice's `Put` applied to the freshly
projected key/value — never the fresh tensors themselves; in the decoder an
executed layer at index `i` receives the slice `Sub(i)`, and distinct indices
yield distinct slices. -/
theorem selfAttention_uses_cache_accumulated :
    (∀ (sa : TextSelfAttention) (h pos : Tensor) (mask : Option Tensor)
       (cache : Cache) (opts : TextModelOptions),
       TextSelfAttention.Forward sa h pos mask cache opts =
         (let headDim := opts.hiddenSize / opts.numHeads
          let q := ((Linear.Forward sa.Query h).reshape
              [headDim, opts.numHeads, h.dim 1]).rope pos opts.RopeFactors
              opts.ropeDim opts.ropeBase opts.ropeScale
          let kFresh := ((Linear.Forward sa.Key h).reshape
              [headDim, opts.numKVHeads, h.dim 1]).rope pos opts.RopeFactors
              opts.ropeDim opts.ropeBase opts.ropeScale
          let vFresh := (Linear.Forward sa.Value h).reshape
              [headDim, opts.numKVHeads, h.dim 1]
          selfAttnScoring sa q (Tensor.cacheK cache kFresh vFresh)
            (Tensor.cacheV cache kFresh vFresh) mask opts (h.dim 1)))
    ∧ (∀ (cache : Cache) (kFresh vFresh : Tensor),
         Tensor.cacheK cache kFresh vFresh ≠ kFresh
         ∧ Tensor.cacheV cache kFresh vFresh ≠ vFresh)
    ∧ (∀ (opts : TextModelOptions) (pos : Tensor) (mask xs xm : Option Tensor)
       (cache : Cache) (l : TextDecoderLayer) (rest : List TextDecoderLayer)
       (i : Nat) (h : Tensor),
       (!(opts.crossAttentionLayers.contains (u32 i)) || Option.isSome xs) = true →
       forwardLayers opts pos mask xs xm cache (l :: rest) i h
         = (TextDecoderLayer.Forward l h pos mask xs xm (Cache.sub cache i) opts).bind
             (fun h2 => forwardLayers opts pos mask xs xm cache rest (i + 1) h2))
    ∧ (∀ (c : Cache) (i j : Nat), i ≠ j → Cache.sub c i ≠ Cache.sub c j) := by
  refine ⟨fun sa h pos mask cache opts => rfl, ?_, ?_, ?_⟩
  · intro cache kFresh vFresh
    constructor
    · intro hEq
      have hs := congrArg sizeOf hEq
      simp only [Tensor.cacheK.sizeOf_spec] at hs
      omega
    · intro hEq
      have hs := congrArg sizeOf hEq
      simp only [Tensor.cacheV.sizeOf_spec] at hs
      omega
  · intro opts pos mask xs xm cache l rest i h hc
    simp only [forwardLayers, hc]
    rfl
  · intro c i j hne hEq
    injection hEq with h1 h2
    exact hne h2

/-- Witness for C4: at index 1 (not in the configured set, state supplied) a
self-attention layer executes with the slice `Sub(1)`, and `Sub(0)` differs
from `Sub(1)`. -/
theorem selfAttention_uses_cache_accumulated_w :
    ((!(wOpts.crossAttentionLayers.contains (u32 1))
        || Option.isSome (some (Tensor.leaf 3 []))) = true)
    ∧ (forwardLayers wOpts (Tensor.leaf 1 []) none (some (Tensor.leaf 3 [])) none
         (Cache.root 0) [TextDecoderLayer.selfAttn emptySelfLayer] 1 (Tensor.leaf 2 [])
       = (TextDecoderLayer.Forward (TextDecoderLayer.selfAttn emptySelfLayer)
            (Tensor.leaf 2 []) (Tensor.leaf 1 []) none (some (Tensor.leaf 3 [])) none
            (Cache.sub (Cache.root 0) 1) wOpts).bind
           (fun h2 => forwardLayers wOpts (Tensor.leaf 1 []) none
              (some (Tensor.leaf 3 [])) none (Cache.root 0) [] 2 h2))
    ∧ ((0 : Nat) ≠ 1 ∧ Cache.sub (Cache.root 0) 0 ≠ Cache.sub (Cache.root 0) 1) :=
  ⟨by decide,
   selfAttention_uses_cache_accumulated.2.2.1 wOpts (Tensor.leaf 1 []) none
     (some (Tensor.leaf 3 [])) none (Cache.root 0)
     (TextDecoderLayer.selfAttn emptySelfLayer) [] 1 (Tensor.leaf 2 []) (by decide),
   by decide,
   selfAttention_uses_cache_accumulated.2.2.2 (Cache.root 0) 0 1 (by decide)⟩

/-- A configuration with invalid geometry: `hiddenSize = 10` is not divisible
by `numHeads = 3`, `numHeads = 3` is not divisible by `numKVHeads = 2`, and
the cross-attention index 5 lies outside the two configured blocks. -/
def badGeometryConfig : Config :=
  { blockCount := 2
  , crossAttentionLayers := [5]
  , embeddingLength := 10
  , headCount := 3
  , headCountKV := 2
  , rmsEps := 1 / 100000
  , ropeFreqBase := 10000
  , ropeFreqScale := none
  , ropeDimCount := 4 }

/-- C2 counterexample: `newTextModel` has no error return and performs no
validation — on a configuration whose hidden size is not divisible by the head
count, whose head count is not divisible by the kv-head count, and whose
cross-attention index set points outside the block range, it still produces a
model with a populated two-layer stack and the invalid geometry copied
verbatim, rather than rejecting the configuration. -/
theorem newTextModel_no_validation_cex :
    ((10 : Int) % 3 ≠ 0)
    ∧ ((3 : Int) % 2 ≠ 0)
    ∧ (∃ j ∈ badGeometryConfig.crossAttentionLayers, badGeometryConfig.blockCount ≤ j)
    ∧ (newTextModel badGeometryConfig).textModelOptions.hiddenSize = 10
    ∧ (newTextModel badGeometryConfig).textModelOptions.numHeads = 3
    ∧ (newTextModel badGeometryConfig).textModelOptions.numKVHeads = 2
    ∧ (newTextModel badGeometryConfig).Transformer.Layers.length = 2 := by
  refine ⟨by decide, by decide, ⟨5, by decide, by decide⟩, rfl, rfl, rfl, rfl⟩

/-- C2 amended: construction is total and unvalidated — for every
configuration it succeeds, copying the geometry fields verbatim into the
options and building one layer per block index whose kind is cross-attention
exactly when the index is in the configured cross-attention index list. -/
theorem newTextModel_unvalidated_total (c : Config) (i : Nat) (hi : i < c.blockCount) :
    (newTextModel c).textModelOptions.hiddenSize = (c.embeddingLength : Int)
    ∧ (newTextModel c).textModelOptions.numHeads = (c.headCount : Int)
    ∧ (newTextModel c).textModelOptions.numKVHeads = (c.headCountKV : Int)
    ∧ (newTextModel c).textModelOptions.crossAttentionLayers = c.crossAttentionLayers
    ∧ (newTextModel c).Transformer.Layers.length = c.blockCount
    ∧ ((newTextModel c).Transformer.Layers[i]?).map TextDecoderLayer.isCross
        = some (c.crossAttentionLayers.contains i) := by
  refine ⟨rfl, rfl, rfl, rfl, by simp [newTextModel], ?_⟩
  simp only [newTextModel, List.getElem?_map, List.getElem?_range, hi, if_true]
  by_cases hm : i ∈ c.crossAttentionLayers <;>
    simp [hm, TextDecoderLayer.isCross]

/-- Witness for C2 amended: the bad-geometry configuration yields a model
whose layer 0 is a self-attention layer (0 is not in the configured
cross-attention index list). -/
theorem newTextModel_unvalidated_total_w :
    (0 < badGeometryConfig.blockCount)
    ∧ ((newTextModel badGeometryConfig).Transformer.Layers[0]?).map
        TextDecoderLayer.isCross
      = some (badGeometryConfig.crossAttentionLayers.contains 0) :=
  ⟨by decide,
   (newTextModel_unvalidated_total badGeometryConfig 0 (by decide)).2.2.2.2.2⟩

/-- Written from the spec (4.5): the raw first-sublayer output — the
cross-attention unit applied to the normalized hidden state. -/
def gatedSub1 (d : TextCrossAttentionDecoderLayer) (x xs : Tensor) (cache : Cache)
    (opts : TextModelOptions) : Tensor :=
  TextCrossAttention.Forward d.CrossAttention
    (RMSNormW.Forward d.AttentionNorm x opts.eps) xs cache opts

/-- Written from the spec (4.5): hidden state after the gated cross-attention
sublayer and its residual add. -/
def gatedMid (d : TextCrossAttentionDecoderLayer) (x xs : Tensor) (cache : Cache)
    (opts : TextModelOptions) : Tensor :=
  ((gatedSub1 d x xs cache opts).mul d.AttentionGate.tanh).add x

/-- Written from the spec (4.5): the raw second-sublayer output — the
feed-forward unit applied to the normalized mid state. -/
def gatedSub2 (d : TextCrossAttentionDecoderLayer) (x xs : Tensor) (cache : Cache)
    (opts : TextModelOptions) : Tensor :=
  TextMLP.Forward d.MLP
    (RMSNormW.Forward d.MLPNorm (gatedMid d x xs cache opts) opts.eps) opts

/-- Written from the spec (4.5): each sublayer output is multiplied elementwise
by tanh of its learned gate before being added to the residual. -/
def specGatedLayer (d : TextCrossAttentionDecoderLayer) (x xs : Tensor) (cache : Cache)
    (opts : TextModelOptions) : Tensor :=
  ((gatedSub2 d x xs cache opts).mul d.MLPGate.tanh).add (gatedMid d x xs cache opts)

/-- A sublayer output multiplied by tanh of a gate that evaluates to the
one-element zero tensor contributes nothing: the residual add returns the
residual, provided the sublayer output has the residual's length. -/
theorem eval_gated_zero (I : Interp) (s g x : Tensor)
    (hg : Tensor.eval I g = [0]) (ht : I.tanhF 0 = 0)
    (hlen : (Tensor.eval I s).length = (Tensor.eval I x).length) :
    Tensor.eval I (Tensor.add (Tensor.mul s (Tensor.tanh g)) x) = Tensor.eval I x := by
  have hz : (Tensor.eval I s).map (fun a => a * (0 : Rat))
      = List.replicate (Tensor.eval I x).length 0 := by
    rw [← hlen]
    induction Tensor.eval I s with
    | nil => rfl
    | cons a t ih => simp [ih, List.replicate_succ]
  have hzip : List.zipWith (· + ·) (List.replicate (Tensor.eval I x).length (0 : Rat))
      (Tensor.eval I x) = Tensor.eval I x := by
    induction Tensor.eval I x with
    | nil => rfl
    | cons a t ih => simp [List.replicate_succ, ih]
  simp only [Tensor.eval, hg, List.map_cons, List.map_nil, ht]
  simp only [List.length_cons, List.length_nil, Nat.zero_add, List.headD_cons,
    eq_self_iff_true, if_true]
  rw [hz, hzip]

/-- C6: the cross-attention decoder layer multiplies each sublayer output by
tanh of its learned gate before the residual add (structural equality with the
spec composition), and consequently, when both gates evaluate to zero (so
tanh of the gate is zero), the layer's output evaluates to its input hidden
state. -/
theorem crossAttn_layer_zero_gate_identity (I : Interp)
    (d : TextCrossAttentionDecoderLayer) (x xs : Tensor) (xm : Option Tensor)
    (cache : Cache) (opts : TextModelOptions)
    (hg1 : Tensor.eval I d.AttentionGate = [0])
    (hg2 : Tensor.eval I d.MLPGate = [0])
    (htanh : I.tanhF 0 = 0)
    (hlen1 : (Tensor.eval I (gatedSub1 d x xs cache opts)).length
        = (Tensor.eval I x).length)
    (hlen2 : (Tensor.eval I (gatedSub2 d x xs cache opts)).length
        = (Tensor.eval I x).length) :
    d.Forward x xs xm cache opts = specGatedLayer d x xs cache opts
    ∧ Tensor.eval I (d.Forward x xs xm cache opts) = Tensor.eval I x := by
  refine ⟨rfl, ?_⟩
  have emid : Tensor.eval I (gatedMid d x xs cache opts) = Tensor.eval I x :=
    eval_gated_zero I (gatedSub1 d x xs cache opts) d.AttentionGate x hg1 htanh hlen1
  have hlen2m : (Tensor.eval I (gatedSub2 d x xs cache opts)).length
      = (Tensor.eval I (gatedMid d x xs cache opts)).length := by
    rw [emid]; exact hlen2
  have efin : Tensor.eval I (specGatedLayer d x xs cache opts)
      = Tensor.eval I (gatedMid d x xs cache opts) :=
    eval_gated_zero I (gatedSub2 d x xs cache opts) d.MLPGate
      (gatedMid d x xs cache opts) hg2 htanh hlen2m
  calc Tensor.eval I (d.Forward x xs xm cache opts)
      = Tensor.eval I (specGatedLayer d x xs cache opts) := rfl
    _ = Tensor.eval I (gatedMid d x xs cache opts) := efin
    _ = Tensor.eval I x := emid

/-- Interpretation used by the witness: leaf 7 is the zero gate, every other
leaf holds two elements; the abstract operations are chosen length-preserving
in their first argument. -/
def wI : Interp :=
  { leafF := fun i => if i = 7 then [0] else [1, 2]
  , linearF := fun _ v => v
  , rmsnormF := fun _ _ v => v
  , embedF := fun _ v => v
  , ropeF := fun v _ _ _ _ _ => v
  , mulmatF := fun a _ => a
  , softmaxF := fun v => v
  , permuteF := fun _ _ _ _ v => v
  , tanhF := fun q => q
  , siluF := fun q => q
  , invSqrtF := fun _ => 1
  , cacheKF := fun k _ => k
  , cacheVF := fun _ v => v }

/-- A cross-attention decoder layer whose two gates are the zero leaf. -/
def wGateLayer : TextCrossAttentionDecoderLayer :=
  { emptyCrossLayer with
      AttentionGate := Tensor.leaf 7 []
    , MLPGate := Tensor.leaf 7 [] }

/-- Witness for C6: under the concrete interpretation with both gates zero,
the layer's output evaluates to its input. -/
theorem crossAttn_layer_zero_gate_identity_w :
    Tensor.eval wI (wGateLayer.Forward (Tensor.leaf 1 []) (Tensor.leaf 2 []) none
        (Cache.root 0) wOpts)
      = Tensor.eval wI (Tensor.leaf 1 []) :=
  (crossAttn_layer_zero_gate_identity wI wGateLayer (Tensor.leaf 1 []) (Tensor.leaf 2 [])
    none (Cache.root 0) wOpts (by decide) (by decide) rfl (by decide) (by decide)).2
